import Mathlib

/-!
Verification of the PathGuard hook (`security-check.py`).

The script reads one JSON document from standard input, extracts
`tool_input.file_path`, and decides ALLOW (exit 0, no output) or BLOCK
(exit 2, one diagnostic line).  We embed the parsed JSON value, the
Python dictionary/string operations the script uses, and the control
flow of `main` (including the distinction between a Python `Exception`,
caught by the top-level handler, and `SystemExit`, which is not).
-/

namespace SecurityCheck

/-- A parsed JSON value, as produced by `json.load`. -/
inductive Json where
  | null : Json
  | bool (b : Bool) : Json
  | num (n : Int) : Json
  | str (s : String) : Json
  | arr (xs : List Json) : Json
  | obj (kvs : List (String × Json)) : Json

/-- The program's input: either a byte stream that `json.load` rejects,
or a successfully parsed JSON value. -/
inductive Input where
  | malformed : Input
  | json (v : Json) : Input

/-- `PROTECTED_FILES = {'.env', '.env.local', '.env.production', 'credentials.json'}` -/
def PROTECTED_FILES : List String :=
  [".env", ".env.local", ".env.production", "credentials.json"]

/-- `PROTECTED_PATTERNS = ['id_rsa', '.pem', '.key']` -/
def PROTECTED_PATTERNS : List String := ["id_rsa", ".pem", ".key"]

/-- Python dictionary lookup over an association list. -/
def dictGet (kvs : List (String × Json)) (k : String) : Option Json :=
  (kvs.find? (fun kv => kv.1 == k)).map (fun kv => kv.2)

/-- `d.get(k, dflt)`: succeeds only on a dict; on any other value Python
raises `AttributeError` (an `Exception`). -/
def pyGet : Json → String → Json → Except Unit Json
  | .obj kvs, k, dflt => .ok ((dictGet kvs k).getD dflt)
  | _, _, _ => .error ()

/-- Key lookup, `none` when the value is not a dict or the key is absent. -/
def Json.lookup : Json → String → Option Json
  | .obj kvs, k => dictGet kvs k
  | _, _ => none

/-- Whether a JSON value is a dict containing the given key. -/
def Json.hasKey (v : Json) (k : String) : Bool := (v.lookup k).isSome

/-- Python truthiness of a JSON value (`if file_path:`). -/
def pyTruthy : Json → Bool
  | .null => false
  | .bool b => b
  | .num n => n != 0
  | .str s => s != ""
  | .arr xs => !xs.isEmpty
  | .obj kvs => !kvs.isEmpty

/-- `str.split(sep)` with an explicit one-character separator, on the
character list: splits at every occurrence, keeping empty pieces, and
never returns an empty list. -/
def splitChar (sep : Char) : List Char → List (List Char)
  | [] => [[]]
  | c :: cs =>
    if c = sep then [] :: splitChar sep cs
    else
      match splitChar sep cs with
      | [] => [[c]]
      | g :: gs => (c :: g) :: gs

/-- `file_path.split('/')` on a string. -/
def pySplit (sep : Char) (s : String) : List String :=
  (splitChar sep s.data).map (fun cs => String.mk cs)

/-- `file_path.split('/')[-1]`: the final path segment. -/
def filenameOf (s : String) : String := (pySplit '/' s).getLastD ""

/-- `filename = file_path.split('/')[-1] if file_path else ''`.
A truthy non-string has no `.split`, so Python raises `AttributeError`. -/
def computeFilename (fp : Json) : Except Unit String :=
  if pyTruthy fp then
    match fp with
    | .str s => .ok (filenameOf s)
    | _ => .error ()
  else .ok ""

/-- Contiguous-sublist test on character lists: does `pat` occur
somewhere inside `l`?  The empty list occurs in everything. -/
def subList (pat : List Char) : List Char → Bool
  | [] => pat.isEmpty
  | c :: cs => pat.isPrefixOf (c :: cs) || subList pat cs

/-- Python's substring test `pat in s`. -/
def strContains (pat s : String) : Bool := subList pat.data s.data

/-- Python's `pattern in file_path` when `file_path` is an arbitrary
parsed JSON value: substring test on a string, element membership on a
list, key membership on a dict, `TypeError` otherwise. -/
def pyContains (pat : String) : Json → Except Unit Bool
  | .str s => .ok (strContains pat s)
  | .arr xs => .ok (xs.any (fun x => match x with | .str t => t == pat | _ => false))
  | .obj kvs => .ok (kvs.any (fun kv => kv.1 == pat))
  | _ => .error ()

/-- The `for pattern in PROTECTED_PATTERNS` loop: first matching pattern,
propagating a `TypeError` from `in`. -/
def scanPatterns : List String → Json → Except Unit (Option String)
  | [], _ => .ok none
  | p :: ps, fp =>
    match pyContains p fp with
    | .error e => .error e
    | .ok true => .ok (some p)
    | .ok false => scanPatterns ps fp

/-- `input_data.get('tool_input', {}).get('file_path', '')`. -/
def getFilePath (v : Json) : Except Unit Json := do
  let ti ← pyGet v "tool_input" (Json.obj [])
  pyGet ti "file_path" (Json.str "")

/-- How the `try` block of `main` terminates: an `Exception` escaping to
the handler (with whatever was printed before it), or `SystemExit c`
raised by `sys.exit(c)` (with the printed output). -/
inductive Ctl where
  | exc (out : List String) : Ctl
  | exit (code : Nat) (out : List String) : Ctl
deriving DecidableEq

/-- The body of the `try` block of `main`. -/
def runGuard : Input → Ctl
  | .malformed => .exc []
  | .json v =>
    match getFilePath v with
    | .error _ => .exc []
    | .ok fp =>
      match computeFilename fp with
      | .error _ => .exc []
      | .ok filename =>
        if filename ∈ PROTECTED_FILES then
          .exit 2 ["BLOCKED: Cannot edit protected file: " ++ filename]
        else
          match scanPatterns PROTECTED_PATTERNS fp with
          | .error _ => .exc []
          | .ok (some p) =>
            .exit 2 ["BLOCKED: Cannot edit file matching pattern: " ++ p]
          | .ok none => .exit 0 []

/-- Observable behaviour of one invocation: exit status and the lines
printed on standard output. -/
structure Result where
  exitCode : Nat
  output : List String
deriving DecidableEq

/-- `main`: run the `try` block; `except Exception` catches a Python
`Exception` (never `SystemExit`) and exits 0. -/
def main (i : Input) : Result :=
  match runGuard i with
  | .exit c out => ⟨c, out⟩
  | .exc out => ⟨0, out⟩

/-! ### Helper lemmas -/

theorem splitChar_ne_nil (sep : Char) (l : List Char) : splitChar sep l ≠ [] := by
  cases l with
  | nil => simp [splitChar]
  | cons c cs =>
    unfold splitChar
    split
    · simp
    · split <;> simp

theorem splitChar_append_sep (sep : Char) (l : List Char) :
    splitChar sep (l ++ [sep]) = splitChar sep l ++ [[]] := by
  induction l with
  | nil => simp [splitChar]
  | cons c cs ih =>
    by_cases hc : c = sep
    · simp [splitChar, hc, ih]
    · rw [List.cons_append]
      unfold splitChar
      rw [if_neg hc, if_neg hc, ih]
      cases h : splitChar sep cs with
      | nil => exact absurd h (splitChar_ne_nil sep cs)
      | cons g gs => simp

theorem filenameOf_trailing (l : List Char) :
    filenameOf (String.mk (l ++ ['/'])) = "" := by
  unfold filenameOf pySplit
  rw [show (String.mk (l ++ ['/'])).data = l ++ ['/'] from rfl]
  rw [splitChar_append_sep, List.map_append]
  simp

theorem computeFilename_str (s : String) :
    computeFilename (Json.str s) = .ok (filenameOf s) := by
  unfold computeFilename pyTruthy
  by_cases h : s = ""
  · subst h
    simp [filenameOf, pySplit, splitChar]
  · simp [h]

theorem scanPatterns_str (ps : List String) (s : String) :
    scanPatterns ps (Json.str s) = .ok (List.find? (fun p => strContains p s) ps) := by
  induction ps with
  | nil => rfl
  | cons p ps ih =>
    unfold scanPatterns pyContains
    cases h : strContains p s <;> simp [List.find?, h, ih]

theorem runGuard_json_str (v : Json) (s : String)
    (hfp : getFilePath v = .ok (.str s)) :
    runGuard (Input.json v) =
      if filenameOf s ∈ PROTECTED_FILES then
        .exit 2 ["BLOCKED: Cannot edit protected file: " ++ filenameOf s]
      else
        match List.find? (fun p => strContains p s) PROTECTED_PATTERNS with
        | some p => .exit 2 ["BLOCKED: Cannot edit file matching pattern: " ++ p]
        | none => .exit 0 [] := by
  unfold runGuard
  dsimp only
  rw [hfp]
  dsimp only
  rw [computeFilename_str]
  dsimp only
  by_cases hf : filenameOf s ∈ PROTECTED_FILES
  · simp [hf]
  · rw [if_neg hf, if_neg hf, scanPatterns_str]
    cases h : List.find? (fun p => strContains p s) PROTECTED_PATTERNS <;> simp

theorem main_allow_of_empty (v : Json)
    (hfp : getFilePath v = .ok (.str "")) :
    main (Input.json v) = ⟨0, []⟩ := by
  unfold main
  rw [runGuard_json_str v "" hfp]
  decide

theorem main_allow_of_error (v : Json) (e : Unit)
    (hfp : getFilePath v = .error e) :
    main (Input.json v) = ⟨0, []⟩ := by
  unfold main runGuard
  dsimp only
  rw [hfp]

theorem getFilePath_obj (kvs : List (String × Json)) :
    getFilePath (Json.obj kvs) =
      pyGet ((dictGet kvs "tool_input").getD (Json.obj []))
        "file_path" (Json.str "") := rfl

theorem runGuard_cases (i : Input) :
    runGuard i = .exc [] ∨ runGuard i = .exit 0 [] ∨
      ∃ out, runGuard i = .exit 2 out := by
  cases i with
  | malformed => left; rfl
  | json v =>
    unfold runGuard
    dsimp only
    repeat' split
    all_goals simp

/-! ### Claim theorems -/

/-- Claim C1: for every input whose parsed `file_path` has a final path
segment (after splitting on `/`) in the protected-filename set, the
program exits with code 2 and prints exactly one line
`BLOCKED: Cannot edit protected file: <filename>` containing that
filename. -/
theorem protected_file_blocked (v : Json) (s : String)
    (hfp : getFilePath v = .ok (.str s))
    (hf : filenameOf s ∈ PROTECTED_FILES) :
    main (Input.json v) =
      ⟨2, ["BLOCKED: Cannot edit protected file: " ++ filenameOf s]⟩ := by
  unfold main
  rw [runGuard_json_str v s hfp, if_pos hf]

theorem protected_file_blocked_witness :
    main (Input.json (Json.obj
        [("tool_input", Json.obj [("file_path", Json.str "/home/user/.env")])])) =
      ⟨2, ["BLOCKED: Cannot edit protected file: " ++ filenameOf "/home/user/.env"]⟩ :=
  protected_file_blocked _ "/home/user/.env" rfl (by decide)

/-- Claim C2: for every input whose parsed `file_path` contains one of
the protected patterns as a substring and whose final segment is not a
protected filename, the program exits with code 2 and prints one line
`BLOCKED: Cannot edit file matching pattern: <pattern>` containing the
matched pattern. -/
theorem pattern_blocked (v : Json) (s : String)
    (hfp : getFilePath v = .ok (.str s))
    (hf : filenameOf s ∉ PROTECTED_FILES)
    (hp : ∃ p ∈ PROTECTED_PATTERNS, strContains p s = true) :
    ∃ q ∈ PROTECTED_PATTERNS, strContains q s = true ∧
      main (Input.json v) =
        ⟨2, ["BLOCKED: Cannot edit file matching pattern: " ++ q]⟩ := by
  obtain ⟨p, hmem, hps⟩ := hp
  have hfind : (List.find? (fun p => strContains p s) PROTECTED_PATTERNS).isSome := by
    rw [List.find?_isSome]
    exact ⟨p, hmem, hps⟩
  obtain ⟨q, hq⟩ := Option.isSome_iff_exists.mp hfind
  have hqmem := List.mem_of_find?_eq_some hq
  have hqtrue := List.find?_some hq
  refine ⟨q, hqmem, by simpa using hqtrue, ?_⟩
  unfold main
  rw [runGuard_json_str v s hfp, if_neg hf, hq]

theorem pattern_blocked_witness :
    ∃ q ∈ PROTECTED_PATTERNS, strContains q "/keys/id_rsa" = true ∧
      main (Input.json (Json.obj
          [("tool_input", Json.obj [("file_path", Json.str "/keys/id_rsa")])])) =
        ⟨2, ["BLOCKED: Cannot edit file matching pattern: " ++ q]⟩ :=
  pattern_blocked _ "/keys/id_rsa" rfl (by decide) ⟨"id_rsa", by decide, by decide⟩

/-- Claim C3: for every well-formed input whose `file_path` neither has
a protected final segment nor contains any protected pattern as a
substring, the program exits with code 0 and produces no output. -/
theorem clean_path_allowed (v : Json) (s : String)
    (hfp : getFilePath v = .ok (.str s))
    (hf : filenameOf s ∉ PROTECTED_FILES)
    (hp : ∀ p ∈ PROTECTED_PATTERNS, strContains p s = false) :
    main (Input.json v) = ⟨0, []⟩ := by
  have hfind : List.find? (fun p => strContains p s) PROTECTED_PATTERNS = none := by
    rw [List.find?_eq_none]
    intro p hmem
    simp [hp p hmem]
  unfold main
  rw [runGuard_json_str v s hfp, if_neg hf, hfind]

theorem clean_path_allowed_witness :
    main (Input.json (Json.obj
        [("tool_input", Json.obj [("file_path", Json.str "/src/main.py")])])) =
      ⟨0, []⟩ :=
  clean_path_allowed _ "/src/main.py" rfl (by decide) (by decide)

/-- Claim C4: for every standard-input stream that is not parseable as
JSON, the program exits with code 0, produces no output, and does not
crash (fail-open). -/
theorem malformed_fail_open : main Input.malformed = ⟨0, []⟩ := rfl

/-- Claim C5: for every JSON input in which the `tool_input` key or the
`file_path` key is absent, the program exits with code 0 (the path is
treated as the empty string, which matches no rule). -/
theorem missing_keys_allowed (v : Json)
    (h : v.hasKey "tool_input" = false ∨
      ∃ ti, v.lookup "tool_input" = some ti ∧ ti.hasKey "file_path" = false) :
    main (Input.json v) = ⟨0, []⟩ := by
  rcases h with h | ⟨ti, hti, hfp⟩
  · cases v with
    | obj kvs =>
      have hd : dictGet kvs "tool_input" = none := by
        simp only [Json.hasKey, Json.lookup] at h
        exact Option.not_isSome_iff_eq_none.mp (by simp [h])
      exact main_allow_of_empty _ (by rw [getFilePath_obj, hd]; rfl)
    | null => exact main_allow_of_error _ () rfl
    | bool b => exact main_allow_of_error _ () rfl
    | num n => exact main_allow_of_error _ () rfl
    | str s => exact main_allow_of_error _ () rfl
    | arr xs => exact main_allow_of_error _ () rfl
  · cases v with
    | obj kvs =>
      have hd : dictGet kvs "tool_input" = some ti := by
        simpa [Json.lookup] using hti
      cases ti with
      | obj tkvs =>
        have htd : dictGet tkvs "file_path" = none := by
          simp only [Json.hasKey, Json.lookup] at hfp
          exact Option.not_isSome_iff_eq_none.mp (by simp [hfp])
        refine main_allow_of_empty _ ?_
        rw [getFilePath_obj, hd]
        show pyGet (Json.obj tkvs) "file_path" (Json.str "") = .ok (Json.str "")
        dsimp only [pyGet]
        rw [htd]
        rfl
      | null => exact main_allow_of_error _ () (by rw [getFilePath_obj, hd]; rfl)
      | bool b => exact main_allow_of_error _ () (by rw [getFilePath_obj, hd]; rfl)
      | num n => exact main_allow_of_error _ () (by rw [getFilePath_obj, hd]; rfl)
      | str s => exact main_allow_of_error _ () (by rw [getFilePath_obj, hd]; rfl)
      | arr xs => exact main_allow_of_error _ () (by rw [getFilePath_obj, hd]; rfl)
    | null => exact absurd hti (by simp [Json.lookup])
    | bool b => exact absurd hti (by simp [Json.lookup])
    | num n => exact absurd hti (by simp [Json.lookup])
    | str s => exact absurd hti (by simp [Json.lookup])
    | arr xs => exact absurd hti (by simp [Json.lookup])

theorem missing_keys_allowed_witness :
    main (Input.json (Json.obj [("other", Json.str "x")])) = ⟨0, []⟩ :=
  missing_keys_allowed _ (Or.inl (by decide))

/-- Claim C6: when a `file_path` contains more than one protected
pattern as a substring (and its final segment is not a protected
filename), the emitted message identifies the first matching pattern in
the fixed list order `id_rsa`, `.pem`, `.key`. -/
theorem first_pattern_wins (v : Json) (s p : String)
    (hfp : getFilePath v = .ok (.str s))
    (hf : filenameOf s ∉ PROTECTED_FILES)
    (hfirst : List.find? (fun q => strContains q s) PROTECTED_PATTERNS = some p)
    (_hmulti : 2 ≤ (PROTECTED_PATTERNS.filter (fun q => strContains q s)).length) :
    main (Input.json v) =
      ⟨2, ["BLOCKED: Cannot edit file matching pattern: " ++ p]⟩ := by
  unfold main
  rw [runGuard_json_str v s hfp, if_neg hf, hfirst]

theorem first_pattern_wins_witness :
    main (Input.json (Json.obj
        [("tool_input", Json.obj [("file_path", Json.str "/keys/id_rsa.pem")])])) =
      ⟨2, ["BLOCKED: Cannot edit file matching pattern: " ++ "id_rsa"]⟩ :=
  first_pattern_wins _ "/keys/id_rsa.pem" "id_rsa" rfl (by decide) (by decide) (by decide)

/-- Claim C7: the exact-filename check takes precedence over the
substring-pattern check: when the final segment is protected and the
path also contains a protected pattern, the protected-file message is
printed and the exit code is 2. -/
theorem filename_check_precedes (v : Json) (s : String)
    (hfp : getFilePath v = .ok (.str s))
    (hf : filenameOf s ∈ PROTECTED_FILES)
    (_hp : ∃ p ∈ PROTECTED_PATTERNS, strContains p s = true) :
    main (Input.json v) =
      ⟨2, ["BLOCKED: Cannot edit protected file: " ++ filenameOf s]⟩ := by
  unfold main
  rw [runGuard_json_str v s hfp, if_pos hf]

theorem filename_check_precedes_witness :
    main (Input.json (Json.obj
        [("tool_input", Json.obj [("file_path", Json.str "id_rsa/.env")])])) =
      ⟨2, ["BLOCKED: Cannot edit protected file: " ++ filenameOf "id_rsa/.env"]⟩ :=
  filename_check_precedes _ "id_rsa/.env" rfl (by decide)
    ⟨"id_rsa", by decide, by decide⟩

/-- Claim C8: for every possible standard-input stream, the program
terminates with exit code 0 or exit code 2, never any other code, and
never lets an exception escape. -/
theorem exit_code_zero_or_two (i : Input) :
    (main i).exitCode = 0 ∨ (main i).exitCode = 2 := by
  rcases runGuard_cases i with h | h | ⟨out, h⟩ <;> simp [main, h]

/-- Claim C9: for every `file_path` ending in `/`, the final segment
computed by splitting on `/` is the empty string, so the
protected-filename rule never fires; when additionally no protected
pattern occurs as a substring (as for `/home/user/.env/`), the program
exits with code 0. -/
theorem trailing_slash_empty_segment (v : Json) (l : List Char)
    (hfp : getFilePath v = .ok (.str (String.mk (l ++ ['/']))))
    (hp : ∀ p ∈ PROTECTED_PATTERNS,
      strContains p (String.mk (l ++ ['/'])) = false) :
    filenameOf (String.mk (l ++ ['/'])) = "" ∧
      main (Input.json v) = ⟨0, []⟩ := by
  have hfn := filenameOf_trailing l
  refine ⟨hfn, ?_⟩
  have hf : filenameOf (String.mk (l ++ ['/'])) ∉ PROTECTED_FILES := by
    rw [hfn]; decide
  have hfind : List.find? (fun p => strContains p (String.mk (l ++ ['/'])))
      PROTECTED_PATTERNS = none := by
    rw [List.find?_eq_none]
    intro p hmem
    simp [hp p hmem]
  unfold main
  rw [runGuard_json_str v _ hfp, if_neg hf, hfind]

theorem trailing_slash_empty_segment_witness :
    filenameOf (String.mk ("/home/user/.env".data ++ ['/'])) = "" ∧
      main (Input.json (Json.obj
        [("tool_input",
          Json.obj [("file_path", Json.str "/home/user/.env/")])])) = ⟨0, []⟩ :=
  trailing_slash_empty_segment _ "/home/user/.env".data rfl (by decide)

/-- Claim C10: a BLOCK decision is never converted to ALLOW by the
fail-open handler: `sys.exit(2)` raises `SystemExit`, which the
top-level `except Exception` does not catch, so once a block message is
printed the process exits with code 2. -/
theorem block_not_converted (i : Input)
    (h : (main i).output ≠ []) : (main i).exitCode = 2 := by
  rcases runGuard_cases i with hg | hg | ⟨out, hg⟩
  · simp [main, hg] at h
  · simp [main, hg] at h
  · simp [main, hg]

theorem block_not_converted_witness :
    (main (Input.json (Json.obj
        [("tool_input", Json.obj [("file_path", Json.str "/home/user/.env")])]))).output ≠ [] ∧
      (main (Input.json (Json.obj
        [("tool_input", Json.obj [("file_path", Json.str "/home/user/.env")])]))).exitCode = 2 :=
  ⟨by decide, block_not_converted _ (by decide)⟩

end SecurityCheck
